import Mathlib

/-!
Verification of the Icinga 2 base object runtime (`src/lib/base/object.hpp`)
via a shallow embedding in Lean.

The embedding models:
 - the polymorphic class hierarchy and the two pointer casts the header uses
   (`dynamic_pointer_cast`, `static_pointer_cast`);
 - the two build configurations `_DEBUG` vs release, which select the
   conversion behaviour of `Object::SharedPtrHolder` and the mutex flavour;
 - the default object factory and `TypeHelper`;
 - virtual dispatch of `GetReflectionType` as generated by `IMPL_TYPE_LOOKUP`;
 - the base-class reflective field interface `GetField`/`SetField`;
 - the `WeakPtrEqual` comparator;
 - an interleaving semantics for two threads contending for one object lock.
-/

/-- Build configuration: the header compiles differently under `#ifdef _DEBUG`. -/
inductive Build
  | debug
  | release
deriving DecidableEq, Repr

/-- Class identifiers in the polymorphic hierarchy; `objectClassId` is the
root class `icinga::Object`. -/
abbrev ClassId := Nat

/-- The root class `icinga::Object`. -/
def objectClassId : ClassId := 0

/-- A class hierarchy: each class has at most one direct base class, and
`depth` bounds the length of any parent chain (single inheritance, as used
by `DECLARE_OBJECT` classes). -/
structure Hierarchy where
  parent : ClassId → Option ClassId
  depth : Nat

/-- Walks the parent chain upward from `d` for at most `fuel` steps looking
for `t`; returns true when `t` is `d` itself or a (transitive) base of `d`. -/
def ancestorOrSelfFuel (parent : ClassId → Option ClassId) : Nat → ClassId → ClassId → Bool
  | 0, t, d => t == d
  | fuel + 1, t, d =>
      t == d ||
        match parent d with
        | none => false
        | some p => ancestorOrSelfFuel parent fuel t p

/-- True when class `t` equals class `d` or is an ancestor (base class) of `d`. -/
def Hierarchy.ancestorOrSelf (h : Hierarchy) (t d : ClassId) : Bool :=
  ancestorOrSelfFuel h.parent h.depth t d

/-- A reference to a live heap object: its identity (address) and the class
it was constructed as (its dynamic type). -/
structure ObjRef where
  oid : Nat
  dyn : ClassId
deriving DecidableEq, Repr

/-- A `shared_ptr<T>`: the static type `T` it is declared at, and the referent
(`none` is the null pointer). -/
structure SharedPtr where
  staticType : ClassId
  ptr : Option ObjRef
deriving DecidableEq, Repr

/-- A `weak_ptr<T>`: same observable data as a shared pointer, but it does not
own the referent. -/
structure WeakPtr where
  staticType : ClassId
  ptr : Option ObjRef
deriving DecidableEq, Repr

/-- Boost/std `dynamic_pointer_cast<T>`: the cast succeeds (non-null result)
exactly when the referent's dynamic type is `T` or a class derived from `T`,
i.e. `T` is an ancestor-or-self of the dynamic type; otherwise the result is
a null pointer of static type `T`. -/
def dynamic_pointer_cast (h : Hierarchy) (t : ClassId) (p : Option ObjRef) : SharedPtr :=
  ⟨t, match p with
      | none => none
      | some r => if h.ancestorOrSelf t r.dyn then some r else none⟩

/-- Boost/std `static_pointer_cast<T>`: an unchecked reinterpretation of the
pointer at static type `T`; the referent is carried over unconditionally. -/
def static_pointer_cast (t : ClassId) (p : Option ObjRef) : SharedPtr :=
  ⟨t, p⟩

/-- `Object::SharedPtrHolder` (object.hpp lines 120-169): wraps an
`Object::Ptr` (a `shared_ptr<Object>`). -/
structure SharedPtrHolder where
  m_Object : Option ObjRef
deriving DecidableEq, Repr

/-- The conversion `SharedPtrHolder::operator shared_ptr<T>` (object.hpp
lines 139-150). Under `_DEBUG` it performs `dynamic_pointer_cast<T>` and then
`ASSERT(other)`; the assertion failure (a fatal abort, modelled from the spec
since `base/debug.hpp` is not among the sources) is the `none` result. In a
release build it performs `static_pointer_cast<T>` with no check. -/
def SharedPtrHolder.toSharedPtr (b : Build) (h : Hierarchy) (t : ClassId)
    (hold : SharedPtrHolder) : Option SharedPtr :=
  match b with
  | .debug =>
      let other := dynamic_pointer_cast h t hold.m_Object
      if other.ptr.isSome then some other else none
  | .release => some (static_pointer_cast t hold.m_Object)

/-- Modelled from the spec: `Object::GetSelf` (declared at object.hpp line 176;
its body lives in `object.cpp`, which is not among the sources) hands out a
`SharedPtrHolder` wrapping a shared handle to the object itself. -/
def Object.GetSelf (r : ObjRef) : SharedPtrHolder :=
  ⟨some r⟩

/-- A concrete test hierarchy: class 1 (`Host`) and class 2 (`Service`) both
derive directly from class 0 (`Object`). -/
def testHierarchy : Hierarchy :=
  ⟨fun c => if c = 1 || c = 2 then some objectClassId else none, 1⟩

/-- Claim C1: for a `SharedPtrHolder` wrapping an entity of dynamic type `D`
and a requested target type `T`, the debug-build conversion to `shared_ptr<T>`
is a checked dynamic cast that aborts fatally exactly when `T` is neither `D`
nor an ancestor of `D`, while the release-build conversion is an unchecked
static reinterpretation to `T` with no runtime type check. -/
theorem sharedPtrHolder_downcast_policy (h : Hierarchy) (t : ClassId)
    (hold : SharedPtrHolder) (r : ObjRef) (hr : hold.m_Object = some r) :
    (hold.toSharedPtr Build.debug h t = none ↔ h.ancestorOrSelf t r.dyn = false) ∧
    (hold.toSharedPtr Build.debug h t = some (dynamic_pointer_cast h t hold.m_Object) ↔
      h.ancestorOrSelf t r.dyn = true) ∧
    hold.toSharedPtr Build.release h t = some (static_pointer_cast t hold.m_Object) := by
  refine ⟨?_, ?_, rfl⟩ <;>
    simp [SharedPtrHolder.toSharedPtr, dynamic_pointer_cast, hr]

/-- Witness for C1 at a concrete input: a holder wrapping a `Host` (class 1)
instance, converted in the test hierarchy. -/
theorem sharedPtrHolder_downcast_policy_witness :
    (SharedPtrHolder.mk (some ⟨7, 1⟩) : SharedPtrHolder).m_Object = some ⟨7, 1⟩ ∧
    (((SharedPtrHolder.mk (some ⟨7, 1⟩)).toSharedPtr Build.debug testHierarchy 2 = none ↔
        testHierarchy.ancestorOrSelf 2 (ObjRef.mk 7 1).dyn = false) ∧
      ((SharedPtrHolder.mk (some ⟨7, 1⟩)).toSharedPtr Build.debug testHierarchy 2 =
          some (dynamic_pointer_cast testHierarchy 2 (SharedPtrHolder.mk (some ⟨7, 1⟩)).m_Object) ↔
        testHierarchy.ancestorOrSelf 2 (ObjRef.mk 7 1).dyn = true) ∧
      (SharedPtrHolder.mk (some ⟨7, 1⟩)).toSharedPtr Build.release testHierarchy 2 =
        some (static_pointer_cast 2 (SharedPtrHolder.mk (some ⟨7, 1⟩)).m_Object)) :=
  ⟨rfl, sharedPtrHolder_downcast_policy testHierarchy 2 ⟨some ⟨7, 1⟩⟩ ⟨7, 1⟩ rfl⟩

/-- Claim C2: converting the holder returned by `GetSelf` to the entity's own
runtime type, or to any ancestor of it, succeeds in both builds and yields a
non-null shared handle to the same instance. -/
theorem getSelf_conversion_succeeds (b : Build) (h : Hierarchy) (r : ObjRef)
    (t : ClassId) (ht : h.ancestorOrSelf t r.dyn = true) :
    (Object.GetSelf r).toSharedPtr b h t = some ⟨t, some r⟩ := by
  cases b with
  | debug => simp [Object.GetSelf, SharedPtrHolder.toSharedPtr, dynamic_pointer_cast, ht]
  | release => rfl

/-- Witness for C2: a `Host` (class 1) instance's self-reference converted to
its base class `Object` (class 0) in the debug build. -/
theorem getSelf_conversion_succeeds_witness :
    testHierarchy.ancestorOrSelf objectClassId (ObjRef.mk 7 1).dyn = true ∧
    (Object.GetSelf ⟨7, 1⟩).toSharedPtr Build.debug testHierarchy objectClassId =
      some ⟨objectClassId, some ⟨7, 1⟩⟩ :=
  ⟨by decide,
   getSelf_conversion_succeeds Build.debug testHierarchy ⟨7, 1⟩ objectClassId (by decide)⟩

/-- Thread identifiers. -/
abbrev ThreadId := Nat

/-- The per-entity debug bookkeeping declared under `_DEBUG` (object.hpp
lines 188-189): `mutable bool m_Locked` and `mutable boost::thread::id
m_LockOwner`. -/
structure DebugLockInfo where
  m_Locked : Bool
  m_LockOwner : ThreadId
deriving DecidableEq, Repr

/-- `Object::OwnsLock` is declared only under `_DEBUG` (object.hpp lines
171-173); in a release build the member does not exist at all, modelled as the
`none` result ("no such callable"). Modelled from the spec for the debug body
(it lives in `object.cpp`, which is not among the sources): it reports whether
the bookkeeping records the calling thread as the current lock holder. -/
def Object.OwnsLock (b : Build) (info : DebugLockInfo) (tid : ThreadId) : Option Bool :=
  match b with
  | .debug => some (info.m_Locked && info.m_LockOwner == tid)
  | .release => none

/-- Claim C3 counterexample: in a release build `OwnsLock` does not return the
value `false` to a caller — the member is compiled out entirely, so there is
no returned value at all. -/
theorem ownsLock_release_returns_nothing :
    ¬ (Object.OwnsLock Build.release ⟨false, 0⟩ 0 = some false) := by
  decide

/-- Claim C3 (amended): `Object::OwnsLock` is exposed only in the debug build;
in a release build the member is compiled out and no call to it can return any
value (in particular it does not return `false`). -/
theorem ownsLock_debug_only (b : Build) (info : DebugLockInfo) (tid : ThreadId) :
    ((Object.OwnsLock b info tid).isSome = true ↔ b = Build.debug) ∧
    Object.OwnsLock Build.release info tid = none := by
  cases b <;> simp [Object.OwnsLock]

/-- The two mutex flavours selected by `Object::MutexType`. -/
inductive MutexKind
  | plain
  | recursive
deriving DecidableEq, Repr

/-- `Object::MutexType` (object.hpp lines 182-185): `boost::mutex` in a
release build, `boost::recursive_mutex` under `_DEBUG`. -/
def Object.MutexType : Build → MutexKind
  | .release => .plain
  | .debug => .recursive

/-- Presence of the process-wide `static boost::mutex m_DebugMutex`
(object.hpp line 187), declared only under `_DEBUG`. -/
def Object.hasDebugMutex : Build → Bool
  | .debug => true
  | .release => false

/-- Presence of the per-entity `m_Locked` / `m_LockOwner` records
(object.hpp lines 188-189), declared only under `_DEBUG`. -/
def Object.hasLockBookkeeping : Build → Bool
  | .debug => true
  | .release => false

/-- State of one entity's mutex: free, or held by a thread with an
acquisition count (a count above 1 arises only for the recursive flavour). -/
inductive MutexState
  | free
  | held (owner : ThreadId) (count : Nat)
deriving DecidableEq, Repr

/-- Blocking acquire. `none` means the calling thread blocks: `boost::mutex`
blocks whenever the mutex is held — also when the caller itself is the
holder — while `boost::recursive_mutex` lets the holder re-acquire,
incrementing its count. -/
def MutexState.acquire (k : MutexKind) (s : MutexState) (tid : ThreadId) :
    Option MutexState :=
  match s with
  | .free => some (.held tid 1)
  | .held o c =>
      match k with
      | .plain => none
      | .recursive => if o == tid then some (.held o (c + 1)) else none

/-- Unlock: only the holding thread can release; releasing decrements the
count and frees the mutex when it reaches zero. `none` means the call is not a
legal release. -/
def MutexState.unlock (s : MutexState) (tid : ThreadId) : Option MutexState :=
  match s with
  | .free => none
  | .held o c =>
      if o == tid then
        some (if c ≤ 1 then .free else .held o (c - 1))
      else none

/-- Claim C4: production builds use a plain non-reentrant mutex — the holder
re-acquiring blocks, and only the holder itself could ever release, so the
thread deadlocks — while debug builds use a recursive mutex (holder re-acquire
succeeds) together with the static debug bookkeeping mutex and the per-entity
lock records, both of which exist only in debug builds. -/
theorem object_mutex_flavours :
    Object.MutexType Build.release = MutexKind.plain ∧
    Object.MutexType Build.debug = MutexKind.recursive ∧
    (∀ t c, MutexState.acquire MutexKind.plain (.held t c) t = none) ∧
    (∀ t t' c, MutexState.unlock (.held t c) t' =
      if t' == t then some (if c ≤ 1 then .free else .held t (c - 1)) else none) ∧
    (∀ t c, MutexState.acquire MutexKind.recursive (.held t c) t =
      some (.held t (c + 1))) ∧
    Object.hasDebugMutex Build.debug = true ∧
    Object.hasLockBookkeeping Build.debug = true ∧
    Object.hasDebugMutex Build.release = false ∧
    Object.hasLockBookkeeping Build.release = false := by
  refine ⟨rfl, rfl, fun t c => rfl, fun t t' c => ?_, fun t c => by simp [MutexState.acquire],
    rfl, rfl, rfl, rfl⟩
  by_cases h : t' = t
  · simp [MutexState.unlock, h]
  · simp [MutexState.unlock, h]
    exact fun he => h he.symm

/-- Modelled from the spec: class `Value` is only forward-declared in
object.hpp (line 62); the spec describes it as a dynamically-typed box holding,
among other primitive kinds, an entity handle. -/
inductive Value
  | empty
  | int (n : Int)
  | str (s : String)
  | objectHandle (p : Option ObjRef)
deriving DecidableEq, Repr

/-- Default-constructed reflective field state of a freshly built object:
every field id holds the empty `Value`. -/
def defaultFields : Int → Value := fun _ => Value.empty

/-- The allocator: the next fresh address and the field store of every
allocated object. -/
structure Heap where
  next : Nat
  fields : Nat → Int → Value

/-- `make_shared<T>()`: allocates a fresh, independently owned object of
dynamic type `cls` with default-constructed state. -/
def make_shared (cls : ClassId) (h : Heap) : Heap × ObjRef :=
  (⟨h.next + 1, fun oid => if oid = h.next then defaultFields else h.fields oid⟩,
   ⟨h.next, cls⟩)

/-- `DefaultObjectFactory<T>` (object.hpp lines 81-85): `return
make_shared<T>();`, the result implicitly upcast to `shared_ptr<Object>`. -/
def DefaultObjectFactory (cls : ClassId) (h : Heap) : Heap × SharedPtr :=
  ((make_shared cls h).1, ⟨objectClassId, some (make_shared cls h).2⟩)

/-- `TypeHelper<T>::GetFactory` (object.hpp lines 89-96): returns
`DefaultObjectFactory<T>`. -/
def TypeHelper.GetFactory (cls : ClassId) : Heap → Heap × SharedPtr :=
  DefaultObjectFactory cls

/-- Claim C6: `TypeHelper<T>::GetFactory()` returns `DefaultObjectFactory<T>`,
and every invocation of that factory yields a default-constructed instance of
exactly class `T` at a fresh address, returned as a `shared_ptr<Object>`
handle; two consecutive invocations yield distinct instances. -/
theorem typeHelper_default_factory (cls : ClassId) (h : Heap) :
    TypeHelper.GetFactory cls = DefaultObjectFactory cls ∧
    (DefaultObjectFactory cls h).2 = ⟨objectClassId, some ⟨h.next, cls⟩⟩ ∧
    (DefaultObjectFactory cls h).1.fields h.next = defaultFields ∧
    (DefaultObjectFactory cls h).1.next = h.next + 1 ∧
    (DefaultObjectFactory cls ((DefaultObjectFactory cls h).1)).2.ptr ≠
      (DefaultObjectFactory cls h).2.ptr := by
  refine ⟨rfl, rfl, by simp [DefaultObjectFactory, make_shared], rfl, ?_⟩
  simp [DefaultObjectFactory, make_shared]

/-- Type descriptors: the identity of one `Type` object. -/
abbrev TypeDesc := Nat

/-- The static `TypeInstance` slots generated by `IMPL_TYPE_LOOKUP(klass)`
(object.hpp lines 70-75): each class declaring `DECLARE_OBJECT` carries
exactly one `static shared_ptr<Type> TypeInstance`, recorded here as the slot
of that class. -/
structure TypeInstanceTable where
  slot : ClassId → TypeDesc

/-- Virtual dispatch of `GetReflectionType` as generated by
`IMPL_TYPE_LOOKUP`: the call selects the override defined in the dynamic class
of the referent, which returns that class's own `TypeInstance` slot; the
static type of the handle plays no part. A call through a null handle has no
defined result (`none`). -/
def getReflectionType (ti : TypeInstanceTable) (p : SharedPtr) : Option TypeDesc :=
  match p.ptr with
  | none => none
  | some r => some (ti.slot r.dyn)

/-- Claim C7: `GetReflectionType` called through any handle returns the static
`TypeInstance` slot of the referent's actual concrete class, so two handles to
the same instance with different static types observe the same descriptor. -/
theorem getReflectionType_uses_dynamic_type (ti : TypeInstanceTable) (r : ObjRef)
    (s1 s2 : ClassId) :
    getReflectionType ti ⟨s1, some r⟩ = some (ti.slot r.dyn) ∧
    getReflectionType ti ⟨s1, some r⟩ = getReflectionType ti ⟨s2, some r⟩ := by
  exact ⟨rfl, rfl⟩

/-- The smart-pointer library's `shared_ptr` → `weak_ptr` conversion: the weak
handle observes the same referent at the same static type. -/
def sharedToWeak (p : SharedPtr) : WeakPtr :=
  ⟨p.staticType, p.ptr⟩

/-- `SharedPtrHolder::operator weak_ptr<T>` (object.hpp lines 158-162):
`return static_cast<shared_ptr<T> >(*this);` — the `static_cast` invokes
`operator shared_ptr<T>` (including the debug-build checked downcast and
assertion), and the `return` converts the shared pointer into the weak
pointer. -/
def SharedPtrHolder.toWeakPtr (b : Build) (h : Hierarchy) (t : ClassId)
    (hold : SharedPtrHolder) : Option WeakPtr :=
  match hold.toSharedPtr b h t with
  | none => none
  | some p => some (sharedToWeak p)

/-- Modelled from the spec: the claimed decomposition of the weak conversion —
first perform the `shared_ptr<T>` conversion, then downgrade the result to a
weak handle. -/
def spec_weakConversion (b : Build) (h : Hierarchy) (t : ClassId)
    (hold : SharedPtrHolder) : Option WeakPtr :=
  Option.map sharedToWeak (hold.toSharedPtr b h t)

/-- A shared object's reference-control block: strong and weak counts. The
object is destroyed exactly when the strong count reaches zero. -/
structure RefCounts where
  strong : Nat
  weak : Nat
deriving DecidableEq, Repr

/-- Creating one more owning (shared) handle. -/
def RefCounts.addShared (rc : RefCounts) : RefCounts :=
  ⟨rc.strong + 1, rc.weak⟩

/-- Creating one more weak handle. -/
def RefCounts.addWeak (rc : RefCounts) : RefCounts :=
  ⟨rc.strong, rc.weak + 1⟩

/-- Liveness has ended (the referent was destroyed) when no owning handle is
left. -/
def RefCounts.expired (rc : RefCounts) : Bool :=
  rc.strong == 0

/-- Claim C8: the `weak_ptr<T>` conversion equals the `shared_ptr<T>`
conversion followed by a downgrade (so the debug assertion propagates
unchanged), the resulting weak handle references the same instance, and
creating a weak handle leaves the strong count — hence the destruction
condition — untouched. -/
theorem weakPtr_conversion_equiv (b : Build) (h : Hierarchy) (t : ClassId)
    (hold : SharedPtrHolder) :
    hold.toWeakPtr b h t = spec_weakConversion b h t hold ∧
    (hold.toWeakPtr Build.debug h t = none ↔ hold.toSharedPtr Build.debug h t = none) ∧
    (∀ p, hold.toSharedPtr b h t = some p →
      hold.toWeakPtr b h t = some ⟨p.staticType, p.ptr⟩) ∧
    (∀ rc : RefCounts, (rc.addWeak).strong = rc.strong ∧ (rc.addWeak).expired = rc.expired) := by
  refine ⟨?_, ?_, ?_, fun rc => ⟨rfl, rfl⟩⟩
  · cases hs : hold.toSharedPtr b h t <;>
      simp [SharedPtrHolder.toWeakPtr, spec_weakConversion, hs]
  · cases hs : hold.toSharedPtr Build.debug h t <;>
      simp [SharedPtrHolder.toWeakPtr, hs]
  · intro p hp
    simp [SharedPtrHolder.toWeakPtr, hp, sharedToWeak]

/-- Witness for C8: converting a holder wrapping a `Host` (class 1) instance
to a weak `Object` (class 0) handle in the debug build. -/
theorem weakPtr_conversion_equiv_witness :
    (SharedPtrHolder.mk (some ⟨7, 1⟩)).toSharedPtr Build.debug testHierarchy objectClassId =
      some ⟨objectClassId, some ⟨7, 1⟩⟩ ∧
    (SharedPtrHolder.mk (some ⟨7, 1⟩)).toWeakPtr Build.debug testHierarchy objectClassId =
      some ⟨objectClassId, some ⟨7, 1⟩⟩ :=
  ⟨by decide,
   (weakPtr_conversion_equiv Build.debug testHierarchy objectClassId
      ⟨some ⟨7, 1⟩⟩).2.2.1 ⟨objectClassId, some ⟨7, 1⟩⟩ (by decide)⟩

/-- Modelled from the spec: the base-class `Object::GetField` (declared at
object.hpp line 113; its body lives in `object.cpp`, which is not among the
sources) signals "no such field" by yielding the empty `Value` for every
field id, regardless of the entity's state. -/
def Object.GetField (_fields : Int → Value) (_id : Int) : Value :=
  Value.empty

/-- Modelled from the spec: the base-class `Object::SetField` (declared at
object.hpp line 112; its body lives in `object.cpp`, which is not among the
sources) is a no-op for every field id — the entity's state is returned
unchanged. -/
def Object.SetField (fields : Int → Value) (_id : Int) (_value : Value) : Int → Value :=
  fields

/-- Claim C9: for every field id — including ids no subclass defines, such as
999999 — the base-class `GetField` yields the not-found signal (the empty
`Value`) and the base-class `SetField` leaves the entity's state unchanged. -/
theorem object_base_field_access (fields : Int → Value) (id : Int) (v : Value) :
    Object.GetField fields id = Value.empty ∧
    Object.GetField fields 999999 = Value.empty ∧
    Object.SetField fields id v = fields := by
  exact ⟨rfl, rfl, rfl⟩

/-- Liveness of heap objects: which addresses still hold a live (not yet
destroyed) object. -/
abbrev Liveness := Nat → Bool

/-- `weak_ptr<T>::lock()`: upgrades the weak handle to a shared one; yields
the null pointer when the referent has been destroyed (the weak pointer has
expired). -/
def WeakPtr.lock (w : WeakPtr) (alive : Liveness) : SharedPtr :=
  ⟨w.staticType,
   match w.ptr with
   | none => none
   | some r => if alive r.oid then some r else none⟩

/-- `shared_ptr<T>::get()`: the raw pointer (address) held; `none` is the null
pointer. -/
def SharedPtr.rawGet (p : SharedPtr) : Option Nat :=
  Option.map ObjRef.oid p.ptr

/-- `WeakPtrEqual<T>::operator()` (object.hpp lines 222-225):
`wref.lock().get() == static_cast<const T *>(m_Ref)`; `m_Ref` is the stored
raw pointer. -/
def WeakPtrEqual (m_Ref : Option Nat) (alive : Liveness) (wref : WeakPtr) : Bool :=
  (wref.lock alive).rawGet == m_Ref

/-- Claim C10: the comparator holds exactly when temporarily upgrading the
weak pointer yields a raw pointer equal to the stored reference; for an
expired weak pointer (whose upgrade yields null) it holds exactly when the
stored reference is the null pointer. -/
theorem weakPtrEqual_spec (m_Ref : Option Nat) (alive : Liveness) (wref : WeakPtr) :
    (WeakPtrEqual m_Ref alive wref = true ↔ (wref.lock alive).rawGet = m_Ref) ∧
    ((wref.lock alive).rawGet = none →
      (WeakPtrEqual m_Ref alive wref = true ↔ m_Ref = none)) := by
  constructor
  · simp [WeakPtrEqual]
  · intro hexp
    simp [WeakPtrEqual, hexp]
    exact eq_comm

/-- Witness for C10: an expired weak pointer (its referent destroyed) compared
against the null raw pointer. -/
theorem weakPtrEqual_spec_witness :
    WeakPtrEqual none (fun _ => false) ⟨objectClassId, some ⟨3, 1⟩⟩ = true ↔
      (none : Option Nat) = none :=
  (weakPtrEqual_spec none (fun _ => false) ⟨objectClassId, some ⟨3, 1⟩⟩).2 (by decide)

/-- Modelled from the spec: a thread's critical section under the scoped
guard `ObjectLock` (declared a friend at object.hpp line 194 and defined
outside these sources) — guard construction acquires the entity's `m_Mutex`,
scope exit releases it. Inside the guard the thread reads the shared counter
into a register and writes back the incremented value, modelled as separate
steps so that interleavings could lose updates if the mutex did not prevent
it. -/
inductive Phase
  | idle
  | locked
  | readDone (reg : Nat)
  | writeDone
deriving DecidableEq, Repr

/-- One looping thread: remaining iterations and its position inside the
critical section. -/
structure TState where
  rem : Nat
  phase : Phase
deriving DecidableEq, Repr

/-- The whole two-thread system: the shared counter, the entity's single
mutex (`none` free, otherwise which thread holds it; `false` is the first
thread, `true` the second), and both threads. -/
structure CState where
  counter : Nat
  mutex : Option Bool
  ta : TState
  tb : TState
deriving DecidableEq, Repr

/-- Interleaving semantics. The lock steps follow the release-build plain
`boost::mutex m_Mutex` (object.hpp line 192): acquisition is possible only
when the mutex is free, and only the holder releases it on leaving the
guard's scope, completing one loop iteration. -/
inductive Step : CState → CState → Prop
  | lockA (c r : Nat) (tb : TState) :
      Step ⟨c, none, ⟨r + 1, .idle⟩, tb⟩ ⟨c, some false, ⟨r + 1, .locked⟩, tb⟩
  | readA (c r : Nat) (tb : TState) :
      Step ⟨c, some false, ⟨r, .locked⟩, tb⟩ ⟨c, some false, ⟨r, .readDone c⟩, tb⟩
  | writeA (c reg r : Nat) (tb : TState) :
      Step ⟨c, some false, ⟨r, .readDone reg⟩, tb⟩
        ⟨reg + 1, some false, ⟨r, .writeDone⟩, tb⟩
  | unlockA (c r : Nat) (tb : TState) :
      Step ⟨c, some false, ⟨r + 1, .writeDone⟩, tb⟩ ⟨c, none, ⟨r, .idle⟩, tb⟩
  | lockB (c r : Nat) (ta : TState) :
      Step ⟨c, none, ta, ⟨r + 1, .idle⟩⟩ ⟨c, some true, ta, ⟨r + 1, .locked⟩⟩
  | readB (c r : Nat) (ta : TState) :
      Step ⟨c, some true, ta, ⟨r, .locked⟩⟩ ⟨c, some true, ta, ⟨r, .readDone c⟩⟩
  | writeB (c reg r : Nat) (ta : TState) :
      Step ⟨c, some true, ta, ⟨r, .readDone reg⟩⟩
        ⟨reg + 1, some true, ta, ⟨r, .writeDone⟩⟩
  | unlockB (c r : Nat) (ta : TState) :
      Step ⟨c, some true, ta, ⟨r + 1, .writeDone⟩⟩ ⟨c, none, ta, ⟨r, .idle⟩⟩

/-- Initial state: counter zero, mutex free, both threads idle with `n`
iterations to go. -/
def initState (n : Nat) : CState :=
  ⟨0, none, ⟨n, .idle⟩, ⟨n, .idle⟩⟩

/-- States the system can reach from the initial state. -/
def Reachable (n : Nat) (s : CState) : Prop :=
  Relation.ReflTransGen Step (initState n) s

/-- Both threads have finished all their iterations and left the guard. -/
def Terminal (s : CState) : Prop :=
  s.ta.phase = Phase.idle ∧ s.tb.phase = Phase.idle ∧ s.ta.rem = 0 ∧ s.tb.rem = 0

/-- An increment that has been written back but whose iteration is not yet
complete (the guard is still held). -/
def pendingWrite : Phase → Nat
  | .writeDone => 1
  | _ => 0

/-- The inductive invariant: a thread inside the guard holds the mutex, the
counter accounts exactly for the completed and pending increments, and a
register snapshot taken under the lock still matches the counter. -/
structure LockInv (n : Nat) (s : CState) : Prop where
  remA : s.ta.rem ≤ n
  remB : s.tb.rem ≤ n
  muA : s.ta.phase ≠ Phase.idle → s.mutex = some false
  muB : s.tb.phase ≠ Phase.idle → s.mutex = some true
  cnt : s.counter =
    (n - s.ta.rem) + (n - s.tb.rem) + pendingWrite s.ta.phase + pendingWrite s.tb.phase
  regA : ∀ reg, s.ta.phase = Phase.readDone reg → reg = s.counter
  regB : ∀ reg, s.tb.phase = Phase.readDone reg → reg = s.counter

/-- A thread whose guard-holding would contradict the mutex's actual state is
idle. -/
theorem idle_of_not_holding {p : Phase} {m m' : Option Bool}
    (h : p ≠ Phase.idle → m = m') (hne : ¬ m = m') : p = Phase.idle := by
  by_contra hp
  exact hne (h hp)

/-- The invariant holds initially. -/
theorem inv_init (n : Nat) : LockInv n (initState n) := by
  refine ⟨le_refl n, le_refl n, ?_, ?_, ?_, ?_, ?_⟩ <;>
    simp [initState, pendingWrite]

/-- The invariant is preserved by every step. -/
theorem inv_step (n : Nat) (s s' : CState) (hs : Step s s') (hinv : LockInv n s) :
    LockInv n s' := by
  obtain ⟨remA, remB, muA, muB, cnt, regA, regB⟩ := hinv
  cases hs with
  | lockA c r tb =>
      have htb : tb.phase = Phase.idle := idle_of_not_holding muB (by simp)
      refine ⟨remA, remB, fun _ => rfl, fun hne => absurd htb hne, ?_, ?_, ?_⟩
      · simpa [pendingWrite] using cnt
      · intro reg hreg; simp at hreg
      · exact regB
  | readA c r tb =>
      have htb : tb.phase = Phase.idle := idle_of_not_holding muB (by simp)
      refine ⟨remA, remB, fun _ => rfl, fun hne => absurd htb hne, ?_, ?_, ?_⟩
      · simpa [pendingWrite] using cnt
      · intro reg hreg
        injection hreg with h
        exact h.symm
      · exact regB
  | writeA c reg r tb =>
      have htb : tb.phase = Phase.idle := idle_of_not_holding muB (by simp)
      have hreg : reg = c := regA reg rfl
      refine ⟨remA, remB, fun _ => rfl, fun hne => absurd htb hne, ?_, ?_, ?_⟩
      · simp [pendingWrite, htb] at cnt ⊢
        omega
      · intro reg' hreg'; simp at hreg'
      · intro reg' hreg'
        rw [htb] at hreg'
        simp at hreg'
  | unlockA c r tb =>
      have htb : tb.phase = Phase.idle := idle_of_not_holding muB (by simp)
      refine ⟨by simp at remA ⊢; omega, remB, fun hne => absurd rfl hne,
        fun hne => absurd htb hne, ?_, ?_, ?_⟩
      · simp [pendingWrite, htb] at cnt ⊢
        simp at remA
        omega
      · intro reg hreg; simp at hreg
      · exact regB
  | lockB c r ta =>
      have hta : ta.phase = Phase.idle := idle_of_not_holding muA (by simp)
      refine ⟨remA, remB, fun hne => absurd hta hne, fun _ => rfl, ?_, ?_, ?_⟩
      · simpa [pendingWrite] using cnt
      · exact regA
      · intro reg hreg; simp at hreg
  | readB c r ta =>
      have hta : ta.phase = Phase.idle := idle_of_not_holding muA (by simp)
      refine ⟨remA, remB, fun hne => absurd hta hne, fun _ => rfl, ?_, ?_, ?_⟩
      · simpa [pendingWrite] using cnt
      · exact regA
      · intro reg hreg
        injection hreg with h
        exact h.symm
  | writeB c reg r ta =>
      have hta : ta.phase = Phase.idle := idle_of_not_holding muA (by simp)
      have hreg : reg = c := regB reg rfl
      refine ⟨remA, remB, fun hne => absurd hta hne, fun _ => rfl, ?_, ?_, ?_⟩
      · simp [pendingWrite, hta] at cnt ⊢
        omega
      · intro reg' hreg'
        rw [hta] at hreg'
        simp at hreg'
      · intro reg' hreg'; simp at hreg'
  | unlockB c r ta =>
      have hta : ta.phase = Phase.idle := idle_of_not_holding muA (by simp)
      refine ⟨remA, by simp at remB ⊢; omega, fun hne => absurd hta hne,
        fun hne => absurd rfl hne, ?_, ?_, ?_⟩
      · simp [pendingWrite, hta] at cnt ⊢
        simp at remB
        omega
      · exact regA
      · intro reg hreg; simp at hreg

/-- Every reachable state satisfies the invariant. -/
theorem inv_of_reachable (n : Nat) (s : CState) (h : Reachable n s) : LockInv n s := by
  unfold Reachable at h
  induction h with
  | refl => exact inv_init n
  | tail _ hstep ih => exact inv_step n _ _ hstep ih

/-- Claim C5: per-instance mutual exclusion — in every reachable state of the
two-thread system the threads are never both inside the guarded critical
section, and when both threads have completed their 10,000 guarded increments
the shared counter is exactly 20,000, with no lost updates. -/
theorem per_object_lock_mutual_exclusion (s : CState) (h : Reachable 10000 s) :
    (¬ (s.ta.phase ≠ Phase.idle ∧ s.tb.phase ≠ Phase.idle)) ∧
    (Terminal s → s.counter = 20000) := by
  have hinv := inv_of_reachable 10000 s h
  constructor
  · rintro ⟨ha, hb⟩
    have h1 := hinv.muA ha
    have h2 := hinv.muB hb
    rw [h1] at h2
    simp at h2
  · rintro ⟨hpa, hpb, hra, hrb⟩
    have hc := hinv.cnt
    rw [hpa, hpb, hra, hrb] at hc
    simpa [pendingWrite] using hc

/-- The first thread alone can complete `r` full guarded iterations, adding
`r` to the counter. -/
theorem runFirstThread (r : Nat) (tb : TState) :
    ∀ c, Relation.ReflTransGen Step ⟨c, none, ⟨r, .idle⟩, tb⟩
      ⟨c + r, none, ⟨0, .idle⟩, tb⟩ := by
  induction r with
  | zero => intro c; simpa using Relation.ReflTransGen.refl
  | succ k ih =>
      intro c
      have harith : c + (k + 1) = (c + 1) + k := by omega
      rw [harith]
      exact Relation.ReflTransGen.head (Step.lockA c k tb)
        (Relation.ReflTransGen.head (Step.readA c (k + 1) tb)
          (Relation.ReflTransGen.head (Step.writeA c c (k + 1) tb)
            (Relation.ReflTransGen.head (Step.unlockA (c + 1) k tb) (ih (c + 1)))))

/-- The second thread alone can complete `r` full guarded iterations, adding
`r` to the counter. -/
theorem runSecondThread (r : Nat) (ta : TState) :
    ∀ c, Relation.ReflTransGen Step ⟨c, none, ta, ⟨r, .idle⟩⟩
      ⟨c + r, none, ta, ⟨0, .idle⟩⟩ := by
  induction r with
  | zero => intro c; simpa using Relation.ReflTransGen.refl
  | succ k ih =>
      intro c
      have harith : c + (k + 1) = (c + 1) + k := by omega
      rw [harith]
      exact Relation.ReflTransGen.head (Step.lockB c k ta)
        (Relation.ReflTransGen.head (Step.readB c (k + 1) ta)
          (Relation.ReflTransGen.head (Step.writeB c c (k + 1) ta)
            (Relation.ReflTransGen.head (Step.unlockB (c + 1) k ta) (ih (c + 1)))))

/-- The terminal state with counter 20000 is reachable: the first thread runs
its 10,000 iterations, then the second runs its own. -/
theorem final_state_reachable :
    Reachable 10000 ⟨20000, none, ⟨0, .idle⟩, ⟨0, .idle⟩⟩ := by
  have h1 := runFirstThread 10000 ⟨10000, .idle⟩ 0
  have h2 := runSecondThread 10000 ⟨0, .idle⟩ (0 + 10000)
  have h3 := h1.trans h2
  have harith : (0 + 10000) + 10000 = 20000 := by norm_num
  rw [harith] at h3
  simpa [Reachable, initState] using h3

/-- Witness for C5: the concrete terminal state reached after both threads
complete their 10,000 guarded increments carries counter 20,000. -/
theorem per_object_lock_mutual_exclusion_witness :
    (⟨20000, none, ⟨0, .idle⟩, ⟨0, .idle⟩⟩ : CState).counter = 20000 :=
  (per_object_lock_mutual_exclusion ⟨20000, none, ⟨0, .idle⟩, ⟨0, .idle⟩⟩
    final_state_reachable).2 ⟨rfl, rfl, rfl, rfl⟩
